import Mathlib

/-!
# PyDSM `src/pydsm/delsig/23compat.h`: `Capsule_AsVoidPtr`

The header defines one function, `Capsule_AsVoidPtr`, in two compile-time
variants selected by `PY_VERSION_HEX >= 0x03000000`.  Both variants are thin
wrappers over CPython C-API calls, so the embedding consists of

* a small state model of the interpreter (an object heap and the per-thread
  error indicator),
* the CPython functions the header calls (`PyCapsule_GetPointer`,
  `PyErr_Clear`, `PyCObject_AsVoidPtr` and what these call in turn),
  transcribed from CPython's `Objects/capsule.c`, `Objects/cobject.c`
  (2.7) and `Python/errors.c`,
* `Capsule_AsVoidPtr` itself, transcribed from the header.

Addresses are natural numbers, `0` is `NULL`.  A `PyObject *` is `0` or
`i + 1` for the object stored at index `i` of the heap.  Dereferencing a
non-null handle that designates no live object is undefined behaviour in C;
the embedding returns `none` for it.
-/

namespace PyDSM

/-- Exception classes that matter to the functions modelled here; every other
class is `Other`. -/
inductive PyExcType where
  | ValueError
  | TypeError
  | Other (id : Nat)
  deriving DecidableEq

/-- A set error indicator: the exception class and its message. -/
structure PyErr where
  exc : PyExcType
  message : String
  deriving DecidableEq

/-- Fields of CPython's `PyCapsule` (`Objects/capsule.c`) after the object
header.  `name` is a `const char *`: `none` is `NULL`, `some s` a C string. -/
structure PyCapsule where
  pointer : Nat
  name : Option String
  context : Nat
  destructor : Nat
  deriving DecidableEq

/-- Fields of CPython 2's `PyCObject` (`Include/cobject.h`) after the object
header. -/
structure PyCObject where
  cobject : Nat
  desc : Nat
  destructor : Nat
  deriving DecidableEq

/-- The type of an object (`ob_type`) together with the type-specific fields. -/
inductive PyPayload where
  | capsule (c : PyCapsule)
  | cobject (k : PyCObject)
  | long (ob_ival : Int)
  | other (tp_name : String)
  deriving DecidableEq

/-- A heap object: reference count and typed payload. -/
structure PyObject where
  ob_refcnt : Nat
  payload : PyPayload
  deriving DecidableEq

/-- Interpreter state visible to the shim: the object heap and the error
indicator (`none` when no error is pending). -/
structure Runtime where
  heap : List PyObject
  curexc : Option PyErr
  deriving DecidableEq

/-- The object a handle points to: `none` for `NULL` and for a handle that
designates no live object. -/
def deref (rt : Runtime) (p : Nat) : Option PyObject :=
  if p = 0 then none else rt.heap[p - 1]?

/-- A handle the C code may legally receive: `NULL` or a pointer to a live
object. -/
def wellFormed (rt : Runtime) (p : Nat) : Bool :=
  p == 0 || (deref rt p).isSome

/-- The capsule behind a handle, when the handle points to an object whose type
is exactly `PyCapsule_Type`. -/
def asCapsule (rt : Runtime) (p : Nat) : Option PyCapsule :=
  match deref rt p with
  | some ⟨_, .capsule c⟩ => some c
  | _ => none

/-- The CObject behind a handle, when the handle points to an object whose type
is `PyCObject_Type`. -/
def asCObject (rt : Runtime) (p : Nat) : Option PyCObject :=
  match deref rt p with
  | some ⟨_, .cobject k⟩ => some k
  | _ => none

/-- A capsule as `PyCapsule_New` constructs it: a capsule object whose stored
pointer is not `NULL` (`PyCapsule_New` refuses a `NULL` pointer); the name may
be `NULL` or a string. -/
def isValidCapsule (rt : Runtime) (p : Nat) : Bool :=
  match asCapsule rt p with
  | some c => c.pointer != 0
  | none => false

/-- A handle that is `NULL` or points to a live object that is neither a
capsule nor a CObject (for instance a plain integer object). -/
def isWrongKind (rt : Runtime) (p : Nat) : Bool :=
  p == 0 ||
    (match deref rt p with
     | some ⟨_, .long _⟩ => true
     | some ⟨_, .other _⟩ => true
     | _ => false)

/-- CPython `PyErr_SetString` (`Python/errors.c`): sets the error indicator,
replacing a pending error if there is one. -/
def PyErr_SetString (rt : Runtime) (exc : PyExcType) (message : String) : Runtime :=
  { rt with curexc := some ⟨exc, message⟩ }

/-- CPython `PyErr_Clear` (`Python/errors.c`): clears the error indicator. -/
def PyErr_Clear (rt : Runtime) : Runtime :=
  { rt with curexc := none }

/-- CPython `PyErr_Occurred` (`Python/errors.c`): whether an error is pending. -/
def PyErr_Occurred (rt : Runtime) : Bool :=
  rt.curexc.isSome

/-- CPython `name_matches` (`Objects/capsule.c`):
`if (!name1 || !name2) return name1 == name2; return !strcmp(name1, name2);`. -/
def name_matches (name1 name2 : Option String) : Bool :=
  match name1, name2 with
  | some s1, some s2 => s1 == s2
  | none, none => true
  | _, _ => false

/-- CPython `_is_legal_capsule` (`Objects/capsule.c`):
`if (!capsule || !PyCapsule_CheckExact(capsule) || capsule->pointer == NULL)`
then `PyErr_SetString(PyExc_ValueError, invalid_capsule)` and return 0, else
return 1. -/
def is_legal_capsule (rt : Runtime) (op : Nat) (invalid_capsule : String) :
    Option (Bool × Runtime) :=
  if op = 0 then
    some (false, PyErr_SetString rt .ValueError invalid_capsule)
  else
    match deref rt op with
    | none => none
    | some ⟨_, .capsule c⟩ =>
      if c.pointer = 0 then
        some (false, PyErr_SetString rt .ValueError invalid_capsule)
      else
        some (true, rt)
    | some _ => some (false, PyErr_SetString rt .ValueError invalid_capsule)

/-- CPython `PyCapsule_GetPointer(o, name)` (`Objects/capsule.c`): `NULL` with a
`ValueError` set when `o` is not a legal capsule or when `name` does not match
the capsule's name; otherwise the stored pointer, state untouched. -/
def PyCapsule_GetPointer (rt : Runtime) (o : Nat) (name : Option String) :
    Option (Nat × Runtime) :=
  match is_legal_capsule rt o "PyCapsule_GetPointer called with invalid PyCapsule object" with
  | none => none
  | some (false, rt1) => some (0, rt1)
  | some (true, rt1) =>
    match asCapsule rt1 o with
    | none => none
    | some c =>
      if !name_matches name c.name then
        some (0, PyErr_SetString rt1 .ValueError
          "PyCapsule_GetPointer called with incorrect name")
      else
        some (c.pointer, rt1)

/-- CPython `PyCapsule_GetName(o)` (`Objects/capsule.c`): `NULL` with a
`ValueError` set when `o` is not a legal capsule, otherwise the capsule's name. -/
def PyCapsule_GetName (rt : Runtime) (o : Nat) : Option (Option String × Runtime) :=
  match is_legal_capsule rt o "PyCapsule_GetName called with invalid PyCapsule object" with
  | none => none
  | some (false, rt1) => some (none, rt1)
  | some (true, rt1) =>
    match asCapsule rt1 o with
    | none => none
    | some c => some (c.name, rt1)

/-- Tail of CPython 2.7 `PyCObject_AsVoidPtr`:
`if (!PyErr_Occurred()) PyErr_SetString(PyExc_TypeError, "... null pointer"); return NULL;`. -/
def PyCObject_AsVoidPtr_fail (rt : Runtime) : Nat × Runtime :=
  if !PyErr_Occurred rt then
    (0, PyErr_SetString rt .TypeError "PyCObject_AsVoidPtr called with null pointer")
  else
    (0, rt)

/-- CPython 2.7 `PyCObject_AsVoidPtr(self)` (`Objects/cobject.c`): for a capsule
the pointer is fetched under the capsule's own name, for a CObject the
`cobject` field is returned, for any other object a `TypeError` is set and
`NULL` returned; for `NULL` a `TypeError` is set unless an error is pending. -/
def PyCObject_AsVoidPtr (rt : Runtime) (self : Nat) : Option (Nat × Runtime) :=
  if self ≠ 0 then
    match deref rt self with
    | none => none
    | some ⟨_, .capsule _⟩ =>
      match PyCapsule_GetName rt self with
      | none => none
      | some (name, rt1) => PyCapsule_GetPointer rt1 self name
    | some ⟨_, .cobject k⟩ => some (k.cobject, rt)
    | some _ =>
      some (PyCObject_AsVoidPtr_fail
        (PyErr_SetString rt .TypeError "PyCObject_AsVoidPtr with non-C-object"))
  else
    some (PyCObject_AsVoidPtr_fail rt)

/-- `Capsule_AsVoidPtr` of `23compat.h`.  The preprocessor branch
`#if PY_VERSION_HEX >= 0x03000000` is the outer conditional.

Newer variant:
`void *ret = PyCapsule_GetPointer(obj, NULL); if (!ret) PyErr_Clear(); return ret;`

Older variant: `return PyCObject_AsVoidPtr(obj);` -/
def Capsule_AsVoidPtr (PY_VERSION_HEX : Nat) (rt : Runtime) (obj : Nat) :
    Option (Nat × Runtime) :=
  if PY_VERSION_HEX ≥ 0x03000000 then
    match PyCapsule_GetPointer rt obj none with
    | none => none
    | some (ret, rt1) =>
      if ret = 0 then
        some (ret, PyErr_Clear rt1)
      else
        some (ret, rt1)
  else
    PyCObject_AsVoidPtr rt obj

/-- Two successive calls of `Capsule_AsVoidPtr` on the same handle, the second
one running in the state the first one left: both results and both states. -/
def callTwice (PY_VERSION_HEX : Nat) (rt : Runtime) (obj : Nat) :
    Option (Nat × Runtime × Nat × Runtime) :=
  match Capsule_AsVoidPtr PY_VERSION_HEX rt obj with
  | none => none
  | some (r1, rt1) =>
    match Capsule_AsVoidPtr PY_VERSION_HEX rt1 obj with
    | none => none
    | some (r2, rt2) => some (r1, rt1, r2, rt2)

/-- What a caller means by the object it passes: a boxed address or something
that is not a boxed pointer at all. -/
inductive Boxed where
  | address (A : Nat)
  | notAPointer
  deriving DecidableEq

/-- The result `Capsule_AsVoidPtr` is expected to give for a logical input. -/
def Boxed.expected : Boxed → Nat
  | .address A => A
  | .notAPointer => 0

/-- Reading of a handle in the newer (capsule) representation: a capsule with
`NULL` name over a non-null address is that boxed address, a null handle or an
object that is neither capsule nor CObject is not a boxed pointer.  Other
handles (named capsules, capsules without pointer, CObjects, dangling handles)
get no reading. -/
def newerReading (rt : Runtime) (obj : Nat) : Option Boxed :=
  if isWrongKind rt obj then some .notAPointer
  else
    match asCapsule rt obj with
    | some c => if c.pointer ≠ 0 ∧ c.name = none then some (.address c.pointer) else none
    | none => none

/-- Reading of a handle in the older (CObject) representation: a CObject is
the boxed address it stores, a null handle or an object that is neither capsule
nor CObject is not a boxed pointer.  Other handles get no reading. -/
def olderReading (rt : Runtime) (obj : Nat) : Option Boxed :=
  if isWrongKind rt obj then some .notAPointer
  else
    match asCObject rt obj with
    | some k => some (.address k.cobject)
    | none => none

/-! ## Concrete interpreter states used in the examples -/

/-- A pending error left by some earlier API call. -/
def pendingKeyError : PyErr := ⟨.Other 7, "stale"⟩

/-- Heap with, in handle order: an unnamed capsule over `0x1000`, a capsule
named `"pydsm.ptr"` over `0x1000`, a plain integer object, a CObject over
`0x1000`. -/
def sampleHeap : List PyObject :=
  [⟨1, .capsule ⟨0x1000, none, 0, 0⟩⟩,
   ⟨1, .capsule ⟨0x1000, some "pydsm.ptr", 0, 0⟩⟩,
   ⟨3, .long 42⟩,
   ⟨1, .cobject ⟨0x1000, 0, 0⟩⟩]

/-- The sample heap with no error pending. -/
def rtClean : Runtime := ⟨sampleHeap, none⟩

/-- The sample heap with an error pending. -/
def rtPending : Runtime := ⟨sampleHeap, some pendingKeyError⟩

/-! ## Shared lemmas about the modelled API -/

theorem deref_null (rt : Runtime) : deref rt 0 = none := by
  simp [deref]

theorem asCapsule_deref {rt : Runtime} {obj : Nat} {c : PyCapsule}
    (h : asCapsule rt obj = some c) : ∃ rc, deref rt obj = some ⟨rc, .capsule c⟩ := by
  unfold asCapsule at h
  split at h
  · next rc c0 heq =>
    simp only [Option.some.injEq] at h
    subst h
    exact ⟨rc, heq⟩
  · simp at h

theorem asCapsule_ne_null {rt : Runtime} {obj : Nat} {c : PyCapsule}
    (h : asCapsule rt obj = some c) : obj ≠ 0 := by
  intro h0
  subst h0
  simp [asCapsule, deref_null] at h

theorem asCObject_deref {rt : Runtime} {obj : Nat} {k : PyCObject}
    (h : asCObject rt obj = some k) : ∃ rc, deref rt obj = some ⟨rc, .cobject k⟩ := by
  unfold asCObject at h
  split at h
  · next rc k0 heq =>
    simp only [Option.some.injEq] at h
    subst h
    exact ⟨rc, heq⟩
  · simp at h

theorem asCObject_ne_null {rt : Runtime} {obj : Nat} {k : PyCObject}
    (h : asCObject rt obj = some k) : obj ≠ 0 := by
  intro h0
  subst h0
  simp [asCObject, deref_null] at h

theorem PyErr_Clear_SetString (rt : Runtime) (e : PyExcType) (m : String) :
    PyErr_Clear (PyErr_SetString rt e m) = PyErr_Clear rt := by
  simp [PyErr_Clear, PyErr_SetString]

theorem PyErr_Clear_idem (rt : Runtime) : PyErr_Clear (PyErr_Clear rt) = PyErr_Clear rt := by
  simp [PyErr_Clear]

theorem deref_PyErr_Clear (rt : Runtime) (p : Nat) : deref (PyErr_Clear rt) p = deref rt p := by
  simp [deref, PyErr_Clear]

theorem asCapsule_PyErr_Clear (rt : Runtime) (p : Nat) :
    asCapsule (PyErr_Clear rt) p = asCapsule rt p := by
  simp [asCapsule, deref_PyErr_Clear]

theorem wellFormed_PyErr_Clear (rt : Runtime) (p : Nat) :
    wellFormed (PyErr_Clear rt) p = wellFormed rt p := by
  simp [wellFormed, deref_PyErr_Clear]

/-- `PyCapsule_GetPointer(obj, NULL)` on a capsule with a non-null pointer and
a `NULL` name returns the pointer and touches nothing. -/
theorem PyCapsule_GetPointer_unnamed {rt : Runtime} {obj : Nat} {c : PyCapsule}
    (hc : asCapsule rt obj = some c) (hp : c.pointer ≠ 0) (hn : c.name = none) :
    PyCapsule_GetPointer rt obj none = some (c.pointer, rt) := by
  obtain ⟨rc, hd⟩ := asCapsule_deref hc
  have h0 := asCapsule_ne_null hc
  simp [PyCapsule_GetPointer, is_legal_capsule, h0, hd, hp, hc, hn, name_matches]

/-- `PyCapsule_GetPointer(obj, NULL)` on a well-formed handle that is not a
capsule with a non-null pointer and a `NULL` name returns `NULL` and sets a
`ValueError`. -/
theorem PyCapsule_GetPointer_reject {rt : Runtime} {obj : Nat}
    (hw : wellFormed rt obj = true)
    (h : ∀ c, asCapsule rt obj = some c → c.pointer = 0 ∨ c.name ≠ none) :
    ∃ m, PyCapsule_GetPointer rt obj none = some (0, PyErr_SetString rt .ValueError m) := by
  by_cases h0 : obj = 0
  · subst h0
    exact ⟨_, by simp [PyCapsule_GetPointer, is_legal_capsule]; rfl⟩
  · simp only [wellFormed, Bool.or_eq_true, beq_iff_eq, h0, false_or] at hw
    obtain ⟨o, ho⟩ := Option.isSome_iff_exists.mp hw
    obtain ⟨rc, pl⟩ := o
    cases pl with
    | capsule c =>
      have hc : asCapsule rt obj = some c := by simp [asCapsule, ho]
      by_cases hp : c.pointer = 0
      · exact ⟨_, by simp [PyCapsule_GetPointer, is_legal_capsule, h0, ho, hp]; rfl⟩
      · have hn : c.name ≠ none := (h c hc).resolve_left hp
        obtain ⟨s, hs⟩ := Option.ne_none_iff_exists.mp hn
        exact ⟨_, by simp [PyCapsule_GetPointer, is_legal_capsule, h0, ho, hp, hc, ← hs,
          name_matches]; rfl⟩
    | cobject k => exact ⟨_, by simp [PyCapsule_GetPointer, is_legal_capsule, h0, ho]; rfl⟩
    | long n => exact ⟨_, by simp [PyCapsule_GetPointer, is_legal_capsule, h0, ho]; rfl⟩
    | other n => exact ⟨_, by simp [PyCapsule_GetPointer, is_legal_capsule, h0, ho]; rfl⟩

/-- Newer variant, accepting case. -/
theorem newer_accepts {v : Nat} {rt : Runtime} {obj : Nat} {c : PyCapsule}
    (hv : v ≥ 0x03000000) (hc : asCapsule rt obj = some c) (hp : c.pointer ≠ 0)
    (hn : c.name = none) : Capsule_AsVoidPtr v rt obj = some (c.pointer, rt) := by
  simp [Capsule_AsVoidPtr, hv, PyCapsule_GetPointer_unnamed hc hp hn, hp]

/-- Newer variant, rejecting case. -/
theorem newer_rejects {v : Nat} {rt : Runtime} {obj : Nat}
    (hv : v ≥ 0x03000000) (hw : wellFormed rt obj = true)
    (h : ∀ c, asCapsule rt obj = some c → c.pointer = 0 ∨ c.name ≠ none) :
    Capsule_AsVoidPtr v rt obj = some (0, PyErr_Clear rt) := by
  obtain ⟨m, hm⟩ := PyCapsule_GetPointer_reject hw h
  simp [Capsule_AsVoidPtr, hv, hm, PyErr_Clear_SetString]

theorem not_valid_rejects {rt : Runtime} {obj : Nat} (hi : isValidCapsule rt obj = false) :
    ∀ c, asCapsule rt obj = some c → c.pointer = 0 ∨ c.name ≠ none := by
  intro c hc
  left
  simpa [isValidCapsule, hc] using hi

theorem isValidCapsule_pointer {rt : Runtime} {obj : Nat} {c : PyCapsule}
    (hc : asCapsule rt obj = some c) (hv : isValidCapsule rt obj = true) : c.pointer ≠ 0 := by
  simpa [isValidCapsule, hc] using hv

/-- Newer variant on a well-formed handle: the call returns, and its outcome is
one of the two cases of `newer_accepts` and `newer_rejects`. -/
theorem newer_cases {v : Nat} (rt : Runtime) (obj : Nat)
    (hv : v ≥ 0x03000000) (hw : wellFormed rt obj = true) :
    (∃ c, asCapsule rt obj = some c ∧ c.pointer ≠ 0 ∧ c.name = none ∧
        Capsule_AsVoidPtr v rt obj = some (c.pointer, rt)) ∨
    ((∀ c, asCapsule rt obj = some c → c.pointer = 0 ∨ c.name ≠ none) ∧
        Capsule_AsVoidPtr v rt obj = some (0, PyErr_Clear rt)) := by
  by_cases h : ∃ c, asCapsule rt obj = some c ∧ c.pointer ≠ 0 ∧ c.name = none
  · obtain ⟨c, hc, hp, hn⟩ := h
    exact Or.inl ⟨c, hc, hp, hn, newer_accepts hv hc hp hn⟩
  · have h2 : ∀ c, asCapsule rt obj = some c → c.pointer = 0 ∨ c.name ≠ none := by
      intro c hc
      by_contra hcon
      push_neg at hcon
      exact h ⟨c, hc, hcon.1, hcon.2⟩
    exact Or.inr ⟨h2, newer_rejects hv hw h2⟩

/-- Older variant on a CObject: the stored `cobject` field, state untouched. -/
theorem older_cobject {v : Nat} {rt : Runtime} {obj : Nat} {k : PyCObject}
    (hv : ¬ v ≥ 0x03000000) (hk : asCObject rt obj = some k) :
    Capsule_AsVoidPtr v rt obj = some (k.cobject, rt) := by
  obtain ⟨rc, hd⟩ := asCObject_deref hk
  have h0 := asCObject_ne_null hk
  simp [Capsule_AsVoidPtr, hv, PyCObject_AsVoidPtr, h0, hd]

/-- Older variant on a null handle or an object of another kind: `NULL`. -/
theorem older_wrongKind {v : Nat} {rt : Runtime} {obj : Nat}
    (hv : ¬ v ≥ 0x03000000) (hk : isWrongKind rt obj = true) :
    Option.map Prod.fst (Capsule_AsVoidPtr v rt obj) = some 0 := by
  by_cases h0 : obj = 0
  · subst h0
    by_cases he : rt.curexc.isSome = true <;>
      simp [Capsule_AsVoidPtr, hv, PyCObject_AsVoidPtr, PyCObject_AsVoidPtr_fail,
        PyErr_Occurred, he]
  · simp only [isWrongKind, Bool.or_eq_true, beq_iff_eq, h0, false_or] at hk
    split at hk
    · next rc n hd =>
      simp [Capsule_AsVoidPtr, hv, PyCObject_AsVoidPtr, h0, hd, PyCObject_AsVoidPtr_fail,
        PyErr_Occurred, PyErr_SetString]
    · next rc n hd =>
      simp [Capsule_AsVoidPtr, hv, PyCObject_AsVoidPtr, h0, hd, PyCObject_AsVoidPtr_fail,
        PyErr_Occurred, PyErr_SetString]
    · simp at hk

theorem wrongKind_wellFormed {rt : Runtime} {obj : Nat} (hk : isWrongKind rt obj = true) :
    wellFormed rt obj = true := by
  by_cases h0 : obj = 0
  · simp [wellFormed, h0]
  · simp only [isWrongKind, Bool.or_eq_true, beq_iff_eq, h0, false_or] at hk
    split at hk
    · next rc n hd => simp [wellFormed, hd]
    · next rc n hd => simp [wellFormed, hd]
    · simp at hk

theorem wrongKind_not_capsule {rt : Runtime} {obj : Nat} (hk : isWrongKind rt obj = true) :
    asCapsule rt obj = none := by
  by_cases h0 : obj = 0
  · subst h0
    simp [asCapsule, deref_null]
  · simp only [isWrongKind, Bool.or_eq_true, beq_iff_eq, h0, false_or] at hk
    split at hk
    · next rc n hd => simp [asCapsule, hd]
    · next rc n hd => simp [asCapsule, hd]
    · simp at hk

/-! ## The claims -/

/-- C1, as stated, fails: handle 2 of the sample heap is a validly constructed
capsule wrapping `0x1000` whose name is `"pydsm.ptr"`; the newer variant asks
for the name `NULL`, so the call returns `NULL` instead of `0x1000`. -/
theorem Capsule_AsVoidPtr_named_capsule_yields_null :
    isValidCapsule rtClean 2 = true ∧
    Option.map PyCapsule.pointer (asCapsule rtClean 2) = some 0x1000 ∧
    Option.map Prod.fst (Capsule_AsVoidPtr 0x03050000 rtClean 2) = some 0 ∧
    Option.map Prod.fst (Capsule_AsVoidPtr 0x03050000 rtClean 2) ≠ some 0x1000 := by
  decide

/-- C1, amended: in the newer variant, for every validly constructed capsule
whose name is `NULL` and which wraps the address `A`, `Capsule_AsVoidPtr`
returns exactly `A` (and leaves the interpreter state as it was). -/
theorem Capsule_AsVoidPtr_unwraps_unnamed_capsule (v : Nat) (rt : Runtime) (obj : Nat)
    (c : PyCapsule) (hv : v ≥ 0x03000000) (hc : asCapsule rt obj = some c)
    (hvalid : isValidCapsule rt obj = true) (hname : c.name = none) :
    Capsule_AsVoidPtr v rt obj = some (c.pointer, rt) :=
  newer_accepts hv hc (isValidCapsule_pointer hc hvalid) hname

/-- Instance of the amended C1: the unnamed capsule over `0x1000` unwraps to
`0x1000`. -/
theorem Capsule_AsVoidPtr_unwraps_unnamed_capsule_witness :
    Capsule_AsVoidPtr 0x03050000 rtClean 1 = some (0x1000, rtClean) :=
  Capsule_AsVoidPtr_unwraps_unnamed_capsule 0x03050000 rtClean 1 ⟨0x1000, none, 0, 0⟩
    (by decide) (by decide) (by decide) rfl

/-- C2: in the newer variant, for every well-formed handle that is not a valid
capsule (a null handle, an object of another kind such as a plain integer, a
capsule without pointer) and whatever error was pending before, the call
returns `NULL` and leaves the error indicator clear, the heap as it was. -/
theorem Capsule_AsVoidPtr_invalid_returns_null_and_clears (v : Nat) (rt : Runtime)
    (obj : Nat) (hv : v ≥ 0x03000000) (hw : wellFormed rt obj = true)
    (hinvalid : isValidCapsule rt obj = false) :
    Capsule_AsVoidPtr v rt obj = some (0, ⟨rt.heap, none⟩) :=
  newer_rejects hv hw (not_valid_rejects hinvalid)

/-- Instances of C2: a plain integer object and a null handle, each with an
error pending before the call. -/
theorem Capsule_AsVoidPtr_invalid_returns_null_and_clears_witness :
    Capsule_AsVoidPtr 0x03050000 rtPending 3 = some (0, ⟨sampleHeap, none⟩) ∧
    Capsule_AsVoidPtr 0x03050000 rtPending 0 = some (0, ⟨sampleHeap, none⟩) :=
  ⟨Capsule_AsVoidPtr_invalid_returns_null_and_clears 0x03050000 rtPending 3
      (by decide) (by decide) (by decide),
   Capsule_AsVoidPtr_invalid_returns_null_and_clears 0x03050000 rtPending 0
      (by decide) (by decide) (by decide)⟩

/-- C3 fails on the older variant: given a plain integer object and no pending
error, `PyCObject_AsVoidPtr` sets a `TypeError` which the older variant leaves
pending, whereas the newer variant returns with the error indicator clear. -/
theorem Capsule_AsVoidPtr_older_variant_leaves_error_pending :
    Capsule_AsVoidPtr 0x02070000 rtClean 3 =
      some (0, ⟨sampleHeap, some ⟨.TypeError, "PyCObject_AsVoidPtr with non-C-object"⟩⟩) ∧
    Capsule_AsVoidPtr 0x03050000 rtClean 3 = some (0, ⟨sampleHeap, none⟩) := by
  decide

/-- C4, as stated, fails: a capsule named `"pydsm.ptr"` over `0x1000` (newer
representation) and a CObject over `0x1000` (older representation) both wrap
`0x1000`, yet the newer variant returns `NULL` and the older one `0x1000`. -/
theorem Capsule_AsVoidPtr_variants_differ_on_named_capsule :
    isValidCapsule rtClean 2 = true ∧
    Option.map PyCapsule.pointer (asCapsule rtClean 2) = some 0x1000 ∧
    Option.map PyCObject.cobject (asCObject rtClean 4) = some 0x1000 ∧
    Option.map Prod.fst (Capsule_AsVoidPtr 0x03050000 rtClean 2) = some 0 ∧
    Option.map Prod.fst (Capsule_AsVoidPtr 0x02070000 rtClean 4) = some 0x1000 := by
  decide

/-- C4, amended: when a handle of the newer representation and a handle of the
older representation have the same reading (an unnamed capsule over a
non-null `A` against a CObject over `A`; a null handle or an object that is
neither capsule nor CObject on both sides), the two variants return the same
value: `A` in the first case, `NULL` in the second. -/
theorem Capsule_AsVoidPtr_variants_agree (vNew vOld : Nat) (rtNew rtOld : Runtime)
    (objNew objOld : Nat) (b : Boxed) (hNew : vNew ≥ 0x03000000) (hOld : vOld < 0x03000000)
    (hrN : newerReading rtNew objNew = some b) (hrO : olderReading rtOld objOld = some b) :
    Option.map Prod.fst (Capsule_AsVoidPtr vNew rtNew objNew) = some b.expected ∧
    Option.map Prod.fst (Capsule_AsVoidPtr vOld rtOld objOld) = some b.expected := by
  have hOld2 : ¬ vOld ≥ 0x03000000 := Nat.not_le.mpr hOld
  constructor
  · cases hk : isWrongKind rtNew objNew with
    | true =>
      simp only [newerReading, hk, if_true, Option.some.injEq] at hrN
      subst hrN
      have hnc := wrongKind_not_capsule hk
      have := newer_rejects hNew (wrongKind_wellFormed hk) (fun c hc => by simp [hnc] at hc)
      simp [this, Boxed.expected]
    | false =>
      cases hc : asCapsule rtNew objNew with
      | none => simp [newerReading, hk, hc] at hrN
      | some c =>
        by_cases hcond : c.pointer ≠ 0 ∧ c.name = none
        · have hb : Boxed.address c.pointer = b := by
            simpa [newerReading, hk, hc, hcond.1, hcond.2] using hrN
          subst hb
          simp [newer_accepts hNew hc hcond.1 hcond.2, Boxed.expected]
        · simp [newerReading, hk, hc, hcond] at hrN
  · cases hk : isWrongKind rtOld objOld with
    | true =>
      simp only [olderReading, hk, if_true, Option.some.injEq] at hrO
      subst hrO
      simpa [Boxed.expected] using older_wrongKind hOld2 hk
    | false =>
      cases hc : asCObject rtOld objOld with
      | none => simp [olderReading, hk, hc] at hrO
      | some k =>
        have hb : Boxed.address k.cobject = b := by
          simpa [olderReading, hk, hc] using hrO
        subst hb
        simp [older_cobject hOld2 hc, Boxed.expected]

/-- Instances of the amended C4: unnamed capsule against CObject, both over
`0x1000`. -/
theorem Capsule_AsVoidPtr_variants_agree_witness :
    Option.map Prod.fst (Capsule_AsVoidPtr 0x03050000 rtClean 1) = some 0x1000 ∧
    Option.map Prod.fst (Capsule_AsVoidPtr 0x02070000 rtPending 4) = some 0x1000 :=
  Capsule_AsVoidPtr_variants_agree 0x03050000 0x02070000 rtClean rtPending 1 4
    (.address 0x1000) (by decide) (by decide) (by decide) (by decide)

/-- C6, as stated, fails: for the valid capsule named `"pydsm.ptr"` wrapping
`0x1000`, two successive calls return `NULL` both times, not `0x1000`. -/
theorem Capsule_AsVoidPtr_twice_on_named_capsule :
    isValidCapsule rtClean 2 = true ∧
    Option.map PyCapsule.pointer (asCapsule rtClean 2) = some 0x1000 ∧
    callTwice 0x03050000 rtClean 2 = some (0, rtClean, 0, rtClean) := by
  decide

/-- C6, amended: in the newer variant, for every valid capsule whose name is
`NULL` and which wraps `A`, two successive calls on the same handle return `A`
both times. -/
theorem Capsule_AsVoidPtr_idempotent_on_success (v : Nat) (rt : Runtime) (obj : Nat)
    (c : PyCapsule) (hv : v ≥ 0x03000000) (hc : asCapsule rt obj = some c)
    (hvalid : isValidCapsule rt obj = true) (hname : c.name = none) :
    callTwice v rt obj = some (c.pointer, rt, c.pointer, rt) := by
  have h := newer_accepts hv hc (isValidCapsule_pointer hc hvalid) hname
  simp [callTwice, h]

/-- Instance of the amended C6 on the unnamed capsule over `0x1000`. -/
theorem Capsule_AsVoidPtr_idempotent_on_success_witness :
    callTwice 0x03050000 rtPending 1 = some (0x1000, rtPending, 0x1000, rtPending) :=
  Capsule_AsVoidPtr_idempotent_on_success 0x03050000 rtPending 1 ⟨0x1000, none, 0, 0⟩
    (by decide) (by decide) (by decide) rfl

/-- C7: in the newer variant, for every well-formed handle that is not a valid
capsule, two successive calls return `NULL` both times, and the state after
the second call is the state after the first one, with no error pending. -/
theorem Capsule_AsVoidPtr_idempotent_on_failure (v : Nat) (rt : Runtime) (obj : Nat)
    (hv : v ≥ 0x03000000) (hw : wellFormed rt obj = true)
    (hinvalid : isValidCapsule rt obj = false) :
    callTwice v rt obj = some (0, ⟨rt.heap, none⟩, 0, ⟨rt.heap, none⟩) := by
  have h1 := newer_rejects hv hw (not_valid_rejects hinvalid)
  have hw2 : wellFormed (PyErr_Clear rt) obj = true := by
    rw [wellFormed_PyErr_Clear]; exact hw
  have hi2 : isValidCapsule (PyErr_Clear rt) obj = false := by
    simpa [isValidCapsule, asCapsule_PyErr_Clear] using hinvalid
  have h2 := newer_rejects hv hw2 (not_valid_rejects hi2)
  rw [PyErr_Clear_idem] at h2
  simp only [callTwice, h1, h2]
  rfl

/-- Instance of C7: a plain integer object, error pending before the first
call. -/
theorem Capsule_AsVoidPtr_idempotent_on_failure_witness :
    callTwice 0x03050000 rtPending 3 =
      some (0, ⟨sampleHeap, none⟩, 0, ⟨sampleHeap, none⟩) :=
  Capsule_AsVoidPtr_idempotent_on_failure 0x03050000 rtPending 3
    (by decide) (by decide) (by decide)

/-- C8: in the newer variant, on every well-formed handle the call returns a
value `r` such that `r` is not `NULL` exactly when the object is a capsule with
`NULL` name and non-null pointer; in that case `r` is the stored pointer; for a
capsule with a non-`NULL` name `r` is `NULL`. -/
theorem Capsule_AsVoidPtr_nonnull_iff_unnamed_capsule (v : Nat) (rt : Runtime) (obj : Nat)
    (hv : v ≥ 0x03000000) (hw : wellFormed rt obj = true) :
    ∃ r rt1, Capsule_AsVoidPtr v rt obj = some (r, rt1) ∧
      (r ≠ 0 ↔ ∃ c, asCapsule rt obj = some c ∧ c.name = none ∧ c.pointer ≠ 0) ∧
      (∀ c, asCapsule rt obj = some c → c.name = none → c.pointer ≠ 0 → r = c.pointer) ∧
      (∀ c, asCapsule rt obj = some c → c.name ≠ none → r = 0) := by
  rcases newer_cases rt obj hv hw with ⟨c, hc, hp, hn, hres⟩ | ⟨hrej, hres⟩
  · refine ⟨c.pointer, rt, hres, ⟨fun _ => ⟨c, hc, hn, hp⟩, fun _ => hp⟩, ?_, ?_⟩
    · intro c2 hc2 _ _
      rw [hc] at hc2
      cases hc2
      rfl
    · intro c2 hc2 hn2
      rw [hc] at hc2
      cases hc2
      exact absurd hn hn2
  · refine ⟨0, PyErr_Clear rt, hres, ⟨fun h => absurd rfl h, ?_⟩, ?_, ?_⟩
    · rintro ⟨c, hc, hn, hp⟩
      rcases hrej c hc with h | h
      · exact absurd h hp
      · exact absurd hn h
    · intro c hc hn hp
      rcases hrej c hc with h | h
      · exact absurd h hp
      · exact absurd hn h
    · intro _ _ _
      rfl

/-- Instance of C8 on the capsule named `"pydsm.ptr"`. -/
theorem Capsule_AsVoidPtr_nonnull_iff_unnamed_capsule_witness :
    ∃ r rt1, Capsule_AsVoidPtr 0x03050000 rtClean 2 = some (r, rt1) ∧
      (r ≠ 0 ↔ ∃ c, asCapsule rtClean 2 = some c ∧ c.name = none ∧ c.pointer ≠ 0) ∧
      (∀ c, asCapsule rtClean 2 = some c → c.name = none → c.pointer ≠ 0 → r = c.pointer) ∧
      (∀ c, asCapsule rtClean 2 = some c → c.name ≠ none → r = 0) :=
  Capsule_AsVoidPtr_nonnull_iff_unnamed_capsule 0x03050000 rtClean 2 (by decide) (by decide)

/-- C9: in the newer variant, on every well-formed handle the call returns; when
the result is not `NULL` the whole state, error indicator included, is the
state before the call; when the result is `NULL` the error indicator is clear
afterwards, whatever was pending before. -/
theorem Capsule_AsVoidPtr_clears_only_on_null (v : Nat) (rt : Runtime) (obj : Nat)
    (hv : v ≥ 0x03000000) (hw : wellFormed rt obj = true) :
    ∃ r rt1, Capsule_AsVoidPtr v rt obj = some (r, rt1) ∧
      (r ≠ 0 → rt1 = rt ∧ rt1.curexc = rt.curexc) ∧
      (r = 0 → rt1.curexc = none) := by
  rcases newer_cases rt obj hv hw with ⟨c, _, hp, _, hres⟩ | ⟨_, hres⟩
  · exact ⟨c.pointer, rt, hres, fun _ => ⟨rfl, rfl⟩, fun h => absurd h hp⟩
  · exact ⟨0, PyErr_Clear rt, hres, fun h => absurd rfl h, fun _ => rfl⟩

/-- Instances of C9 with an error pending before the call: a successful unwrap
keeps it pending, a failed one clears it. -/
theorem Capsule_AsVoidPtr_clears_only_on_null_witness :
    (∃ r rt1, Capsule_AsVoidPtr 0x03050000 rtPending 1 = some (r, rt1) ∧
      (r ≠ 0 → rt1 = rtPending ∧ rt1.curexc = rtPending.curexc) ∧
      (r = 0 → rt1.curexc = none)) ∧
    Capsule_AsVoidPtr 0x03050000 rtPending 1 = some (0x1000, rtPending) ∧
    rtPending.curexc = some pendingKeyError ∧
    Capsule_AsVoidPtr 0x03050000 rtPending 3 = some (0, ⟨sampleHeap, none⟩) :=
  ⟨Capsule_AsVoidPtr_clears_only_on_null 0x03050000 rtPending 1 (by decide) (by decide),
   by decide, by decide, by decide⟩

end PyDSM
